import Mathlib

/-!
Shallow embedding of the Omnik inverter TCP protocol module
(omnikinverter/tcp.py): frame codec, message stream decoder and
information-reply decoder.  Bytes are modelled as natural numbers
(each byte below 256), byte strings as lists of naturals, Python
floats as rationals (the scaling factors 0.1 and 0.01 become division
by 10 and by 100), and Python exceptions as an explicit error type.
-/

set_option maxRecDepth 1000000

deriving instance DecidableEq for Except

namespace Omnik

/-- Python exceptions raised by the module, one constructor per raise
site.  The first four arise inside the frame decoder, the stream
decoder adds the start/end/readexactly failures, and the rest arise
while parsing an information reply or dispatching on message type. -/
inductive TcpError
  /-- IndexError from popping an empty bytearray. -/
  | popEmpty
  /-- OmnikInverterPacketInvalidError: checksum mismatch. -/
  | checksumError
  /-- OmnikInverterPacketInvalidError: invalid receiver separator. -/
  | invalidSeparator
  /-- OmnikInverterPacketInvalidError: serial number mismatch in reply. -/
  | serialMismatch
  /-- OmnikInverterPacketInvalidError: invalid start byte. -/
  | invalidStartByte
  /-- OmnikInverterPacketInvalidError: could only read N out of M bytes. -/
  | shortRead
  /-- OmnikInverterPacketInvalidError: invalid end byte. -/
  | invalidEndByte
  /-- asyncio.IncompleteReadError from readexactly at end of stream. -/
  | incompleteRead
  /-- OmnikInverterPacketInvalidError: unknown Omnik message type. -/
  | unknownMessageType
  /-- OmnikInverterPacketInvalidError: no message contained an information reply. -/
  | noInformationReply
  /-- KeyError from the int_to_bool dictionary lookup (the spec calls
  this InvalidFieldValue). -/
  | invalidFieldValue
  /-- UnicodeDecodeError from bytes.decode on invalid UTF-8. -/
  | unicodeDecodeError
  /-- ValueError from ctypes from_buffer_copy on a too-small buffer. -/
  | valueError
  deriving DecidableEq, Repr

def MESSAGE_START : Nat := 0x68
def MESSAGE_END : Nat := 0x16
def MESSAGE_SEND_SEP : Nat := 0x40
def MESSAGE_RECV_SEP : Nat := 0x41
def MESSAGE_TYPE_INFORMATION_REQUEST : Nat := 0x30
def MESSAGE_TYPE_INFORMATION_REPLY : Nat := 0xB0
def MESSAGE_TYPE_ERROR_STRING : Nat := 0xB1
def MESSAGE_TYPE_STRING : Nat := 0xF0
def UINT16_MAX : Nat := 65535

/-- Message length field does not include the header: length (1),
separator (1), message type (1), repeated serial number (2 * 4) and
the checksum suffix (1). -/
def MESSAGE_HEADER_SIZE : Nat := 3 + 2 * 4 + 1

/-- Little-endian encoding of an integer into n bytes, the model of
int.to_bytes(n, little). -/
def toBytesLE : Nat → Nat → List Nat
  | 0, _ => []
  | n + 1, x => x % 256 :: toBytesLE n (x / 256)

/-- Little-endian decoding of a byte list, the model of
int.from_bytes(bs, little). -/
def fromBytesLE : List Nat → Nat
  | [] => 0
  | b :: rest => b + 256 * fromBytesLE rest

/-- Model of tcp._pack_message.  Returns none where Python raises:
bytearray refuses a length byte above 255 and int.to_bytes(4, little)
refuses a serial number of 2^32 or more. -/
def _pack_message (message_type serial_number : Nat) (message : List Nat) :
    Option (List Nat) :=
  if 255 < message.length ∨ 2 ^ 32 ≤ serial_number then none
  else
    let serial_bytes := toBytesLE 4 serial_number
    let request_data :=
      [message.length, MESSAGE_SEND_SEP, message_type] ++
        serial_bytes ++ serial_bytes ++ message
    let checksum := request_data.sum % 256
    some ([MESSAGE_START] ++ request_data ++ [checksum, MESSAGE_END])

/-- Model of tcp._unpack_message: pop the trailing checksum and verify
it, pop length, separator and message type, then compare the two
little-endian serial number copies and return the remainder as the
payload. -/
def _unpack_message (message : List Nat) :
    Except TcpError (Nat × Nat × List Nat) :=
  match message.getLast? with
  | none => .error .popEmpty
  | some message_checksum =>
    let rest := message.dropLast
    let checksum := rest.sum % 256
    if message_checksum ≠ checksum then .error .checksumError
    else
      match rest with
      | [] => .error .popEmpty
      | _length :: rest1 =>
        match rest1 with
        | [] => .error .popEmpty
        | sep :: rest2 =>
          if sep ≠ MESSAGE_RECV_SEP then .error .invalidSeparator
          else
            match rest2 with
            | [] => .error .popEmpty
            | message_type :: rest3 =>
              let serial0 := fromBytesLE (rest3.take 4)
              let serial1 := fromBytesLE ((rest3.drop 4).take 4)
              if serial0 ≠ serial1 then .error .serialMismatch
              else .ok (message_type, serial0, rest3.drop 8)

/-- One iteration of the while-True loop in tcp._unpack_messages over
an explicit byte source.  Returns none when the stream-termination
sentinel 0xFF is read in place of a start marker, otherwise the
decoded frame together with the bytes not yet consumed.  The byte
source has readexactly semantics: running out of bytes is
incompleteRead. -/
def readMessageStep (input : List Nat) :
    Except TcpError (Option ((Nat × Nat × List Nat) × List Nat)) :=
  match input with
  | [] => .error .incompleteRead
  | message_start :: rest =>
    if message_start = 0xFF then .ok none
    else if message_start ≠ MESSAGE_START then .error .invalidStartByte
    else
      match rest with
      | [] => .error .incompleteRead
      | original_length :: rest2 =>
        let length := original_length + MESSAGE_HEADER_SIZE
        if rest2.length < length - 1 then .error .incompleteRead
        else
          let message := original_length :: rest2.take (length - 1)
          let rest3 := rest2.drop (length - 1)
          if message.length ≠ length then .error .shortRead
          else
            match rest3 with
            | [] => .error .incompleteRead
            | endByte :: rest4 =>
              if endByte ≠ MESSAGE_END then .error .invalidEndByte
              else
                match _unpack_message message with
                | .error e => .error e
                | .ok m => .ok (some (m, rest4))

/-- Iterate readMessageStep.  The fuel argument only serves to make
the recursion structural; every step consumes at least one byte of
the input, so a fuel of input.length + 1 never runs out (see
unpackMessagesFuel_congr). -/
def unpackMessagesFuel : Nat → List Nat → Except TcpError (List (Nat × Nat × List Nat))
  | 0, _ => .error .incompleteRead
  | fuel + 1, input =>
    match readMessageStep input with
    | .error e => .error e
    | .ok none => .ok []
    | .ok (some (m, remaining)) =>
      match unpackMessagesFuel fuel remaining with
      | .error e => .error e
      | .ok ms => .ok (m :: ms)

/-- Model of tcp._unpack_messages: the finite sequence of frames
decoded from a byte source, or the first error raised. -/
def _unpack_messages (input : List Nat) :
    Except TcpError (List (Nat × Nat × List Nat)) :=
  unpackMessagesFuel (input.length + 1) input

/-- Strict UTF-8 validity of a byte list, the success condition of
bytes.decode(utf-8) in Python (which rejects truncated sequences,
overlong encodings and surrogate code points). -/
def utf8cont (b : Nat) : Bool := 0x80 ≤ b && b ≤ 0xBF

def isValidUtf8 : List Nat → Bool
  | [] => true
  | b :: rest =>
    if b ≤ 0x7F then isValidUtf8 rest
    else if 0xC2 ≤ b && b ≤ 0xDF then
      match rest with
      | b1 :: r => utf8cont b1 && isValidUtf8 r
      | [] => false
    else if b = 0xE0 then
      match rest with
      | b1 :: b2 :: r => (0xA0 ≤ b1 && b1 ≤ 0xBF) && utf8cont b2 && isValidUtf8 r
      | _ => false
    else if (0xE1 ≤ b && b ≤ 0xEC) || b = 0xEE || b = 0xEF then
      match rest with
      | b1 :: b2 :: r => utf8cont b1 && utf8cont b2 && isValidUtf8 r
      | _ => false
    else if b = 0xED then
      match rest with
      | b1 :: b2 :: r => (0x80 ≤ b1 && b1 ≤ 0x9F) && utf8cont b2 && isValidUtf8 r
      | _ => false
    else if b = 0xF0 then
      match rest with
      | b1 :: b2 :: b3 :: r =>
        (0x90 ≤ b1 && b1 ≤ 0xBF) && utf8cont b2 && utf8cont b3 && isValidUtf8 r
      | _ => false
    else if 0xF1 ≤ b && b ≤ 0xF3 then
      match rest with
      | b1 :: b2 :: b3 :: r =>
        utf8cont b1 && utf8cont b2 && utf8cont b3 && isValidUtf8 r
      | _ => false
    else if b = 0xF4 then
      match rest with
      | b1 :: b2 :: b3 :: r =>
        (0x80 ≤ b1 && b1 ≤ 0x8F) && utf8cont b2 && utf8cont b3 && isValidUtf8 r
      | _ => false
    else false

/-- Big-endian 16-bit field of the BigEndianStructure overlay at a
byte offset. -/
def u16be (data : List Nat) (off : Nat) : Nat :=
  256 * data.getD off 0 + data.getD (off + 1) 0

/-- Big-endian 32-bit field of the BigEndianStructure overlay at a
byte offset. -/
def u32be (data : List Nat) (off : Nat) : Nat :=
  256 * (256 * (256 * data.getD off 0 + data.getD (off + 1) 0) +
    data.getD (off + 2) 0) + data.getD (off + 3) 0

/-- Contiguous bytes data[off : off + len] of the struct overlay. -/
def slice (data : List Nat) (off len : Nat) : List Nat :=
  (data.drop off).take len

/-- Value of a ctypes c_char array field: the bytes up to the first
NUL. -/
def cstr (bs : List Nat) : List Nat := bs.takeWhile (fun b => b != 0)

/-- Model of _AcOutput.get_power: the power field, or none if it is
unset. -/
def get_power (power : Nat) : Option Nat :=
  if power = UINT16_MAX then none else some power

/-- Model of _AcOutput.get_frequency: the frequency field in Hertz
(raw times 0.01), or none if it is unset. -/
def get_frequency (frequency : Nat) : Option ℚ :=
  if frequency = UINT16_MAX then none else some ((frequency : ℚ) / 100)

/-- Model of the list_divide_10 helper in _parse_information_reply:
none for the UINT16_MAX sentinel, raw times 0.1 otherwise. -/
def list_divide_10 (integers : List Nat) : List (Option ℚ) :=
  integers.map (fun v => if v = UINT16_MAX then none else some ((v : ℚ) / 10))

/-- Model of the int_to_bool helper: a two-entry dictionary lookup
whose failure on any other key is a KeyError. -/
def int_to_bool (num : Nat) : Except TcpError Bool :=
  if num = 0 then .ok false
  else if num = 1 then .ok true
  else .error .invalidFieldValue

/-- Model of the temperature_to_float helper: none for the 65326
sentinel returned when the inverter is offline, raw times 0.1
otherwise. -/
def temperature_to_float (temp : Nat) : Option ℚ :=
  if temp = 65326 then none else some ((temp : ℚ) / 10)

/-- The decoded information reply: the dictionary built by
_parse_information_reply, with the ac_output structs flattened into
frequency and power lists.  String fields keep their (NUL-truncated,
UTF-8 valid) bytes. -/
structure InfoReply where
  serial_number : List Nat
  temperature : Option ℚ
  dc_input_voltage : List (Option ℚ)
  dc_input_current : List (Option ℚ)
  ac_output_current : List (Option ℚ)
  ac_output_voltage : List (Option ℚ)
  ac_output_frequency : List (Option ℚ)
  ac_output_power : List (Option Nat)
  solar_energy_today : ℚ
  solar_energy_total : ℚ
  solar_hours_total : Nat
  inverter_active : Bool
  firmware : List Nat
  firmware_slave : List Nat
  deriving DecidableEq, Repr

/-- Model of tcp._parse_information_reply.  The _TcpData overlay is
125 bytes (from_buffer_copy raises ValueError on less); fields are
big-endian at fixed offsets.  Failure order follows the source: the
extraction loop walks the field table in order, so a UnicodeDecodeError
on serial_number precedes the KeyError on inverter_active, which
precedes UnicodeDecodeError on the firmware strings. -/
def _parse_information_reply (data : List Nat) : Except TcpError InfoReply :=
  if data.length < 125 then .error .valueError
  else
    let sn := cstr (slice data 3 16)
    if ¬ isValidUtf8 sn then .error .unicodeDecodeError
    else
      match int_to_bool (u16be data 67) with
      | .error e => .error e
      | .ok active =>
        let fw := cstr (slice data 85 16)
        if ¬ isValidUtf8 fw then .error .unicodeDecodeError
        else
          let fws := cstr (slice data 105 16)
          if ¬ isValidUtf8 fws then .error .unicodeDecodeError
          else
            .ok
              { serial_number := sn
                temperature := temperature_to_float (u16be data 19)
                dc_input_voltage :=
                  list_divide_10 [u16be data 21, u16be data 23, u16be data 25]
                dc_input_current :=
                  list_divide_10 [u16be data 27, u16be data 29, u16be data 31]
                ac_output_current :=
                  list_divide_10 [u16be data 33, u16be data 35, u16be data 37]
                ac_output_voltage :=
                  list_divide_10 [u16be data 39, u16be data 41, u16be data 43]
                ac_output_frequency :=
                  [get_frequency (u16be data 45), get_frequency (u16be data 49),
                    get_frequency (u16be data 53)]
                ac_output_power :=
                  [get_power (u16be data 47), get_power (u16be data 51),
                    get_power (u16be data 55)]
                solar_energy_today := (u16be data 57 : ℚ) / 100
                solar_energy_total := (u32be data 59 : ℚ) / 10
                solar_hours_total := u32be data 63
                inverter_active := active
                firmware := fw
                firmware_slave := fws }

/-- The body of the async-for loop in tcp.parse_messages, folded over
the decoded frames.  A request/reply serial number disagreement is
only logged, so the requested serial number does not appear here at
all.  A later information reply overwrites an earlier one (the source
logs a warning and reassigns). -/
def parseLoop : List (Nat × Nat × List Nat) → Option InfoReply →
    Except TcpError InfoReply
  | [], info =>
    match info with
    | none => .error .noInformationReply
    | some i => .ok i
  | (message_type, _reply_serial, message) :: rest, info =>
    if message_type = MESSAGE_TYPE_INFORMATION_REPLY then
      match _parse_information_reply message with
      | .error e => .error e
      | .ok i => parseLoop rest (some i)
    else if message_type = MESSAGE_TYPE_STRING then
      if isValidUtf8 message then parseLoop rest info
      else .error .unicodeDecodeError
    else if message_type = MESSAGE_TYPE_ERROR_STRING then parseLoop rest info
    else .error .unknownMessageType

set_option linter.unusedVariables false in
/-- Model of tcp.parse_messages: decode the byte stream into frames
and fold the dispatch loop over them.  The serial_number argument is
compared against each reply only for logging, so it is unused. -/
def parse_messages (serial_number : Nat) (input : List Nat) :
    Except TcpError InfoReply :=
  match _unpack_messages input with
  | .error e => .error e
  | .ok ms => parseLoop ms none

/-- Replace the separator byte of a frame body (whose last byte is
the checksum) by the receive separator and recompute the checksum. -/
def withRecvSep (body : List Nat) : List Nat :=
  let core := body.dropLast.set 1 MESSAGE_RECV_SEP
  core ++ [core.sum % 256]

/-- A 125-byte information-reply payload of zeroes with
inverter_active set to 1. -/
def zeroPayloadActive : List Nat := (List.replicate 125 0).set 68 1

/-- The record decoded from zeroPayloadActive, written with the same
field expressions the decoder produces. -/
def zeroPayloadActiveInfo : InfoReply :=
  { serial_number := []
    temperature := temperature_to_float (u16be zeroPayloadActive 19)
    dc_input_voltage :=
      list_divide_10 [u16be zeroPayloadActive 21, u16be zeroPayloadActive 23,
        u16be zeroPayloadActive 25]
    dc_input_current :=
      list_divide_10 [u16be zeroPayloadActive 27, u16be zeroPayloadActive 29,
        u16be zeroPayloadActive 31]
    ac_output_current :=
      list_divide_10 [u16be zeroPayloadActive 33, u16be zeroPayloadActive 35,
        u16be zeroPayloadActive 37]
    ac_output_voltage :=
      list_divide_10 [u16be zeroPayloadActive 39, u16be zeroPayloadActive 41,
        u16be zeroPayloadActive 43]
    ac_output_frequency :=
      [get_frequency (u16be zeroPayloadActive 45),
        get_frequency (u16be zeroPayloadActive 49),
        get_frequency (u16be zeroPayloadActive 53)]
    ac_output_power := [some 0, some 0, some 0]
    solar_energy_today := (u16be zeroPayloadActive 57 : ℚ) / 100
    solar_energy_total := (u32be zeroPayloadActive 59 : ℚ) / 10
    solar_hours_total := 0
    inverter_active := true
    firmware := []
    firmware_slave := [] }

/-- A byte stream carrying one information-reply frame with embedded
serial number 5 and payload zeroPayloadActive, then the termination
sentinel.  The checksum 121 is (125 + 0x41 + 0xB0 + 5 + 5 + 1) mod
256. -/
def infoReplyStream : List Nat :=
  0x68 ::
    (125 :: 0x41 :: 0xB0 ::
      ([5, 0, 0, 0] ++ [5, 0, 0, 0] ++ zeroPayloadActive ++ [121])) ++
    [0x16, 0xFF]

/-- A 125-byte payload of zeroes with inverter_active set to 2, a
value outside the int_to_bool dictionary. -/
def inverterActive2Payload : List Nat := (List.replicate 125 0).set 68 2

/-- inverterActive2Payload with an additional invalid UTF-8 byte 0xFF
at the start of the serial_number field. -/
def inverterActive2BadSerial : List Nat := inverterActive2Payload.set 3 0xFF

/-- A byte stream carrying one frame of unknown message type 0x42
(internally consistent serial number 0, empty payload), then the
termination sentinel.  The checksum 131 is (0x41 + 0x42) mod 256. -/
def unknownTypeStream : List Nat :=
  0x68 :: (0 :: 0x41 :: 0x42 :: ([0, 0, 0, 0] ++ [0, 0, 0, 0] ++ [131])) ++
    [0x16, 0xFF]

/-- A byte stream carrying one error-string frame (type 0xB1, empty
payload, serial number 0), then the termination sentinel.  The
checksum 242 is (0x41 + 0xB1) mod 256. -/
def errorStringStream : List Nat :=
  0x68 :: (0 :: 0x41 :: 0xB1 :: ([0, 0, 0, 0] ++ [0, 0, 0, 0] ++ [242])) ++
    [0x16, 0xFF]

/-- The record _parse_information_reply builds from a payload once
its checks have passed, with the given inverter_active value. -/
def mkInfo (data : List Nat) (active : Bool) : InfoReply :=
  { serial_number := cstr (slice data 3 16)
    temperature := temperature_to_float (u16be data 19)
    dc_input_voltage := list_divide_10 [u16be data 21, u16be data 23, u16be data 25]
    dc_input_current := list_divide_10 [u16be data 27, u16be data 29, u16be data 31]
    ac_output_current := list_divide_10 [u16be data 33, u16be data 35, u16be data 37]
    ac_output_voltage := list_divide_10 [u16be data 39, u16be data 41, u16be data 43]
    ac_output_frequency :=
      [get_frequency (u16be data 45), get_frequency (u16be data 49),
        get_frequency (u16be data 53)]
    ac_output_power :=
      [get_power (u16be data 47), get_power (u16be data 51),
        get_power (u16be data 55)]
    solar_energy_today := (u16be data 57 : ℚ) / 100
    solar_energy_total := (u32be data 59 : ℚ) / 10
    solar_hours_total := u32be data 63
    inverter_active := active
    firmware := cstr (slice data 85 16)
    firmware_slave := cstr (slice data 105 16) }

/-- A 125-byte payload of zeroes with inverter_active set to 1 and
dc_input_voltage[0] set to the raw value 65535. -/
def dcVoltage65535Payload : List Nat :=
  (((List.replicate 125 0).set 68 1).set 21 255).set 22 255

/-- A 125-byte payload of zeroes with inverter_active set to 1 and
dc_input_voltage[0] set to the raw value 7. -/
def dcVoltage7Payload : List Nat := ((List.replicate 125 0).set 68 1).set 22 7

theorem readMessageStep_shrinks {input remaining : List Nat}
    {m : Nat × Nat × List Nat}
    (h : readMessageStep input = .ok (some (m, remaining))) :
    remaining.length < input.length := by
  match input with
  | [] => simp [readMessageStep] at h
  | b :: rest =>
    match rest with
    | [] =>
      simp only [readMessageStep] at h
      split at h
      · simp at h
      · split at h <;> simp at h
    | l :: rest2 =>
      simp only [readMessageStep] at h
      split at h
      · simp at h
      split at h
      · simp at h
      split at h
      · simp at h
      split at h
      · simp at h
      split at h
      · simp at h
      next rest3eq endByte rest4 heq =>
        split at h
        · simp at h
        split at h
        · simp at h
        next hunp =>
          simp only [Except.ok.injEq, Option.some.injEq, Prod.mk.injEq] at h
          obtain ⟨-, hrem⟩ := h
          subst hrem
          have hdrop : (rest2.drop (l + MESSAGE_HEADER_SIZE - 1)).length ≤ rest2.length :=
            by simp
          rw [heq] at hdrop
          simp at hdrop ⊢
          omega

/-- The fuel in unpackMessagesFuel is irrelevant as long as it
exceeds the input length: each loop iteration consumes at least one
byte. -/
theorem unpackMessagesFuel_congr :
    ∀ (fuel1 fuel2 : Nat) (input : List Nat),
      input.length < fuel1 → input.length < fuel2 →
      unpackMessagesFuel fuel1 input = unpackMessagesFuel fuel2 input := by
  intro fuel1
  induction fuel1 with
  | zero => intro fuel2 input h1; omega
  | succ f1 ih =>
    intro fuel2 input h1 h2
    match fuel2, h2 with
    | f2 + 1, _ =>
      simp only [unpackMessagesFuel]
      match hstep : readMessageStep input with
      | .error e => rfl
      | .ok none => rfl
      | .ok (some (m, remaining)) =>
        have hlt := readMessageStep_shrinks hstep
        dsimp only
        rw [ih f2 remaining (by omega) (by omega)]

/-- C8: a byte source whose first byte is the stream-termination
sentinel 0xFF makes the message stream decoder yield an empty
sequence of frames and terminate without raising an error. -/
theorem C8_stream_termination (rest : List Nat) :
    _unpack_messages (0xFF :: rest) = .ok [] := by
  simp [_unpack_messages, unpackMessagesFuel, readMessageStep]

/-- C10: the requested serial number is compared with the replied one
only for logging, so a disagreement is not fatal: parse_messages
returns the same decoded telemetry record for any requested serial
number. -/
theorem C10_serial_disagreement_only_logged (requested reply_serial : Nat)
    (input : List Nat) (info : InfoReply)
    (h : parse_messages reply_serial input = .ok info) :
    parse_messages requested input = .ok info := by
  have hsame : parse_messages requested input = parse_messages reply_serial input := rfl
  rw [hsame, h]

/-- Witness for C10: a stream whose single information reply carries
the internally consistent serial number 5 still decodes to its
telemetry record when the requested serial number was 7. -/
theorem C10_serial_disagreement_only_logged_witness :
    _unpack_messages infoReplyStream = .ok [(0xB0, 5, zeroPayloadActive)] ∧
    (5 : Nat) ≠ 7 ∧
    parse_messages 7 infoReplyStream = .ok zeroPayloadActiveInfo :=
  ⟨by decide, by decide,
    C10_serial_disagreement_only_logged 7 5 infoReplyStream zeroPayloadActiveInfo rfl⟩

/-- C6 counterexample: a 125-byte payload whose inverter_active field
is 2 but whose serial_number bytes are invalid UTF-8 fails with the
UnicodeDecodeError raised while decoding serial_number, which the
extraction loop reaches first, not with the KeyError from int_to_bool
(the InvalidFieldValue of the spec). -/
theorem C6_invalid_field_counterexample :
    inverterActive2BadSerial.length = 125 ∧
    u16be inverterActive2BadSerial 67 = 2 ∧
    _parse_information_reply inverterActive2BadSerial = .error .unicodeDecodeError ∧
    _parse_information_reply inverterActive2BadSerial ≠ .error .invalidFieldValue := by
  refine ⟨by decide, by decide, by decide, by decide⟩

/-- C6 (amended): decoding a 125-byte information-reply payload whose
serial_number bytes decode as UTF-8 and whose inverter_active u16
field is neither 0 nor 1 fails with the hard error of the int_to_bool
dictionary lookup (the InvalidFieldValue of the spec); it is never
silently coerced to a boolean. -/
theorem C6_invalid_field_value (data : List Nat) (h125 : data.length = 125)
    (hsn : isValidUtf8 (cstr (slice data 3 16)) = true)
    (h0 : u16be data 67 ≠ 0) (h1 : u16be data 67 ≠ 1) :
    _parse_information_reply data = .error .invalidFieldValue := by
  unfold _parse_information_reply
  rw [if_neg (by omega)]
  rw [if_neg (by simp [hsn])]
  simp [int_to_bool, h0, h1]

/-- Witness for C6: the all-zero payload with inverter_active set to
2 fails with the int_to_bool error. -/
theorem C6_invalid_field_value_witness :
    inverterActive2Payload.length = 125 ∧
    u16be inverterActive2Payload 67 = 2 ∧
    _parse_information_reply inverterActive2Payload = .error .invalidFieldValue :=
  ⟨by decide, by decide,
    C6_invalid_field_value inverterActive2Payload (by decide) (by decide)
      (by decide) (by decide)⟩

/-- C3: for every 125-byte information-reply payload that decodes,
each ac_output power u16 decodes to none when its raw value is 65535
and to the raw value otherwise; each ac_output frequency u16 decodes
to none when its raw value is 65535 and to raw times 0.01 otherwise;
the temperature u16 decodes to none when its raw value is 65326 and
to raw times 0.1 otherwise. -/
theorem C3_sentinel_mapping (data : List Nat) (_h125 : data.length = 125)
    (info : InfoReply) (hok : _parse_information_reply data = .ok info) :
    info.ac_output_power =
      [u16be data 47, u16be data 51, u16be data 55].map
        (fun raw => if raw = 65535 then none else some raw) ∧
    info.ac_output_frequency =
      [u16be data 45, u16be data 49, u16be data 53].map
        (fun raw : Nat => if raw = 65535 then none else some ((raw : ℚ) / 100)) ∧
    info.temperature =
      (if u16be data 19 = 65326 then none else some ((u16be data 19 : ℚ) / 10)) := by
  simp only [_parse_information_reply] at hok
  split at hok
  · exact absurd hok (by simp)
  split at hok
  · exact absurd hok (by simp)
  split at hok
  · exact absurd hok (by simp)
  split at hok
  · exact absurd hok (by simp)
  split at hok
  · exact absurd hok (by simp)
  rw [Except.ok.injEq] at hok
  subst hok
  refine ⟨by simp [get_power, UINT16_MAX], by simp [get_frequency, UINT16_MAX],
    by simp [temperature_to_float]⟩

/-- Witness for C3: the all-zero payload with inverter_active 1
decodes, and its power, frequency and temperature fields follow the
sentinel mapping. -/
theorem C3_sentinel_mapping_witness :
    zeroPayloadActive.length = 125 ∧
    _parse_information_reply zeroPayloadActive = .ok zeroPayloadActiveInfo ∧
    (zeroPayloadActiveInfo.ac_output_power =
      [u16be zeroPayloadActive 47, u16be zeroPayloadActive 51,
        u16be zeroPayloadActive 55].map
        (fun raw => if raw = 65535 then none else some raw) ∧
    zeroPayloadActiveInfo.ac_output_frequency =
      [u16be zeroPayloadActive 45, u16be zeroPayloadActive 49,
        u16be zeroPayloadActive 53].map
        (fun raw : Nat => if raw = 65535 then none else some ((raw : ℚ) / 100)) ∧
    zeroPayloadActiveInfo.temperature =
      (if u16be zeroPayloadActive 19 = 65326 then none
       else some ((u16be zeroPayloadActive 19 : ℚ) / 10))) :=
  ⟨by decide, rfl,
    C3_sentinel_mapping zeroPayloadActive (by decide) zeroPayloadActiveInfo rfl⟩

/-- C4 counterexample: the voltage and current arrays are not decoded
as raw times 0.1 for every raw value; the payload with
dc_input_voltage[0] = 65535 decodes that element to none (the 65535
sentinel applies to list_divide_10 fields too). -/
theorem C4_no_sentinel_counterexample :
    ¬ (∀ (data : List Nat) (info : InfoReply), data.length = 125 →
        _parse_information_reply data = .ok info →
        info.dc_input_voltage =
          [u16be data 21, u16be data 23, u16be data 25].map
            (fun raw : Nat => some ((raw : ℚ) / 10))) := by
  intro hclaim
  have h := hclaim dcVoltage65535Payload (mkInfo dcVoltage65535Payload true)
    (by decide) rfl
  have h21 : u16be dcVoltage65535Payload 21 = 65535 := by decide
  simp [mkInfo, list_divide_10, h21, UINT16_MAX] at h

/-- C4 (amended): for every 125-byte information-reply payload that
decodes, every u16 element of the dc_input_voltage, dc_input_current,
ac_output_current and ac_output_voltage arrays decodes to none when
its raw value is 65535 and to raw times 0.1 otherwise: the 65535
sentinel applies to these fields as well. -/
theorem C4_divide10_sentinel (data : List Nat) (_h125 : data.length = 125)
    (info : InfoReply) (hok : _parse_information_reply data = .ok info) :
    info.dc_input_voltage =
      [u16be data 21, u16be data 23, u16be data 25].map
        (fun raw : Nat => if raw = 65535 then none else some ((raw : ℚ) / 10)) ∧
    info.dc_input_current =
      [u16be data 27, u16be data 29, u16be data 31].map
        (fun raw : Nat => if raw = 65535 then none else some ((raw : ℚ) / 10)) ∧
    info.ac_output_current =
      [u16be data 33, u16be data 35, u16be data 37].map
        (fun raw : Nat => if raw = 65535 then none else some ((raw : ℚ) / 10)) ∧
    info.ac_output_voltage =
      [u16be data 39, u16be data 41, u16be data 43].map
        (fun raw : Nat => if raw = 65535 then none else some ((raw : ℚ) / 10)) := by
  simp only [_parse_information_reply] at hok
  split at hok
  · exact absurd hok (by simp)
  split at hok
  · exact absurd hok (by simp)
  split at hok
  · exact absurd hok (by simp)
  split at hok
  · exact absurd hok (by simp)
  split at hok
  · exact absurd hok (by simp)
  rw [Except.ok.injEq] at hok
  subst hok
  refine ⟨by simp [list_divide_10, UINT16_MAX], by simp [list_divide_10, UINT16_MAX],
    by simp [list_divide_10, UINT16_MAX], by simp [list_divide_10, UINT16_MAX]⟩

/-- Witness for C4 (amended): the payload with dc_input_voltage[0]
raw value 7 decodes, and its four scaled arrays follow the sentinel
mapping. -/
theorem C4_divide10_sentinel_witness :
    dcVoltage7Payload.length = 125 ∧
    _parse_information_reply dcVoltage7Payload = .ok (mkInfo dcVoltage7Payload true) ∧
    ((mkInfo dcVoltage7Payload true).dc_input_voltage =
      [u16be dcVoltage7Payload 21, u16be dcVoltage7Payload 23,
        u16be dcVoltage7Payload 25].map
        (fun raw : Nat => if raw = 65535 then none else some ((raw : ℚ) / 10)) ∧
    (mkInfo dcVoltage7Payload true).dc_input_current =
      [u16be dcVoltage7Payload 27, u16be dcVoltage7Payload 29,
        u16be dcVoltage7Payload 31].map
        (fun raw : Nat => if raw = 65535 then none else some ((raw : ℚ) / 10)) ∧
    (mkInfo dcVoltage7Payload true).ac_output_current =
      [u16be dcVoltage7Payload 33, u16be dcVoltage7Payload 35,
        u16be dcVoltage7Payload 37].map
        (fun raw : Nat => if raw = 65535 then none else some ((raw : ℚ) / 10)) ∧
    (mkInfo dcVoltage7Payload true).ac_output_voltage =
      [u16be dcVoltage7Payload 39, u16be dcVoltage7Payload 41,
        u16be dcVoltage7Payload 43].map
        (fun raw : Nat => if raw = 65535 then none else some ((raw : ℚ) / 10))) :=
  ⟨by decide, rfl,
    C4_divide10_sentinel dcVoltage7Payload (by decide) (mkInfo dcVoltage7Payload true) rfl⟩

/-- C2 counterexample: the header size is 12, not 11; a stream
offering a length byte of 2 followed by only 2 + 11 − 1 = 12 further
bytes and an end marker does not satisfy the decoder, which consumes
the end marker as part of the message and then fails reading more
bytes. -/
theorem C2_header_size_counterexample :
    MESSAGE_HEADER_SIZE ≠ 11 ∧
    readMessageStep (0x68 :: 2 :: (List.replicate 12 0 ++ [0x16])) =
      .error .incompleteRead ∧
    _unpack_messages (0x68 :: 2 :: (List.replicate 12 0 ++ [0x16])) =
      .error .incompleteRead := by
  refine ⟨by decide, by decide, by decide⟩

/-- C2 (amended): after a start marker and a length byte L, the
stream decoder reads exactly L + MESSAGE_HEADER_SIZE − 1 further
bytes, where MESSAGE_HEADER_SIZE = 12, reassembles the frame body as
L followed by those bytes, hands it to the frame decoder, and then
expects the end marker at the next position. -/
theorem C2_read_length (L : Nat) (rest : List Nat)
    (h : L + (MESSAGE_HEADER_SIZE - 1) ≤ rest.length) :
    MESSAGE_HEADER_SIZE = 12 ∧
    readMessageStep (MESSAGE_START :: L :: rest) =
      (match rest.drop (L + (MESSAGE_HEADER_SIZE - 1)) with
       | [] => .error .incompleteRead
       | endByte :: rest4 =>
         if endByte ≠ MESSAGE_END then .error .invalidEndByte
         else
           match _unpack_message (L :: rest.take (L + (MESSAGE_HEADER_SIZE - 1))) with
           | .error e => .error e
           | .ok m => .ok (some (m, rest4))) := by
  refine ⟨rfl, ?_⟩
  have h11 : L + (MESSAGE_HEADER_SIZE - 1) = L + 11 := by
    simp [MESSAGE_HEADER_SIZE]
  rw [h11] at h ⊢
  simp only [readMessageStep, MESSAGE_START, MESSAGE_HEADER_SIZE]
  rw [if_neg (by omega)]
  rw [if_neg (by omega)]
  have hlen : L + (3 + 2 * 4 + 1) - 1 = L + 11 := by omega
  rw [hlen]
  rw [if_neg (by omega)]
  rw [if_neg (by simp [List.length_take]; omega)]

/-- Witness for C2 (amended): a stream carrying one error-string
frame; the step consumes the length byte 0, then 11 further bytes,
then the end marker, and yields the decoded frame. -/
theorem C2_read_length_witness :
    (0 : Nat) + (MESSAGE_HEADER_SIZE - 1) ≤
      ([0x41, 0xB1, 0, 0, 0, 0, 0, 0, 0, 0, 242, 0x16] : List Nat).length ∧
    readMessageStep (MESSAGE_START :: 0 :: [0x41, 0xB1, 0, 0, 0, 0, 0, 0, 0, 0, 242, 0x16]) =
      .ok (some ((0xB1, 0, []), [])) :=
  ⟨by decide,
    ((C2_read_length 0 [0x41, 0xB1, 0, 0, 0, 0, 0, 0, 0, 0, 242, 0x16]
      (by decide)).2).trans (by decide)⟩

/-- C5: for every frame body the frame decoder accepts, flipping any
single bit of any byte other than the final checksum byte makes
decoding fail with the checksum error.  The body is written as
u ++ b :: v with v nonempty, so b ranges over every byte except the
last, and bit k of b is flipped by xor with 2 ^ k. -/
theorem C5_checksum_sensitivity (u v : List Nat) (b k t s : Nat) (p : List Nat)
    (hb : b < 256) (hk : k < 8) (hv : v ≠ [])
    (hok : _unpack_message (u ++ b :: v) = .ok (t, s, p)) :
    _unpack_message (u ++ (b ^^^ 2 ^ k) :: v) = .error .checksumError := by
  obtain ⟨vcore, cs, hvdecomp⟩ : ∃ vcore cs, v = vcore ++ [cs] := by
    rcases v.eq_nil_or_concat' with h | ⟨L, c, h⟩
    · exact absurd h hv
    · exact ⟨L, c, h⟩
  subst hvdecomp
  have hb1 : u ++ b :: (vcore ++ [cs]) = (u ++ b :: vcore) ++ [cs] := by simp
  have hb2 : u ++ (b ^^^ 2 ^ k) :: (vcore ++ [cs]) =
      (u ++ (b ^^^ 2 ^ k) :: vcore) ++ [cs] := by simp
  rw [hb1] at hok
  rw [hb2]
  simp only [_unpack_message, List.getLast?_concat, List.dropLast_concat] at hok ⊢
  by_cases hcs : cs = (u ++ b :: vcore).sum % 256
  · have hx : (b ^^^ 2 ^ k) < 256 := by
      have h2k : (2 : Nat) ^ k < 2 ^ 8 :=
        Nat.pow_lt_pow_right (by norm_num) hk
      have hb8 : b < 2 ^ 8 := by omega
      exact Nat.xor_lt_two_pow hb8 (by omega)
    have hxb : (b ^^^ 2 ^ k) ≠ b := by
      intro heq
      have h3 : b ^^^ (b ^^^ 2 ^ k) = b ^^^ b := by rw [heq]
      rw [← Nat.xor_assoc, Nat.xor_self] at h3
      have h4 : (2 : Nat) ^ k = 0 := by
        rw [Nat.xor_comm] at h3
        rw [Nat.xor_zero] at h3
        exact h3
      exact absurd h4 (by positivity)
    rw [if_pos ?hcond]
    case hcond =>
      rw [List.sum_append, List.sum_cons] at hcs ⊢
      omega
  · rw [if_pos hcs] at hok
    exact absurd hok (by simp)

/-- Witness for C5: flipping bit 0 of the separator byte of a valid
body makes decoding fail with the checksum error. -/
theorem C5_checksum_sensitivity_witness :
    (0x41 : Nat) < 256 ∧ (0 : Nat) < 8 ∧
    _unpack_message ([2] ++ 0x41 :: [0x30, 0, 0, 0, 0, 0, 0, 0, 0, 1, 0, 116]) =
      .ok (0x30, 0, [1, 0]) ∧
    _unpack_message ([2] ++ (0x41 ^^^ 2 ^ 0) :: [0x30, 0, 0, 0, 0, 0, 0, 0, 0, 1, 0, 116]) =
      .error .checksumError :=
  ⟨by decide, by decide, by decide,
    C5_checksum_sensitivity [2] [0x30, 0, 0, 0, 0, 0, 0, 0, 0, 1, 0, 116] 0x41 0
      0x30 0 [1, 0] (by decide) (by decide) (by decide) (by decide)⟩

theorem toBytesLE_length (n : Nat) : ∀ x : Nat, (toBytesLE n x).length = n := by
  induction n with
  | zero => intro x; rfl
  | succ k ih => intro x; simp [toBytesLE, ih]

theorem fromBytesLE_toBytesLE_four (x : Nat) (h : x < 2 ^ 32) :
    fromBytesLE (toBytesLE 4 x) = x := by
  show x % 256 + 256 * (x / 256 % 256 + 256 * (x / 256 / 256 % 256 +
    256 * (x / 256 / 256 / 256 % 256 + 256 * 0))) = x
  omega

/-- The frame decoder on a well-formed body: length byte, receive
separator, message type, two 4-byte serial copies, payload, and a
matching checksum.  It fails iff the serial copies disagree. -/
theorem unpack_message_structure (L mtype : Nat) (sA sB payload : List Nat)
    (hA : sA.length = 4) (hB : sB.length = 4) :
    _unpack_message ((L :: MESSAGE_RECV_SEP :: mtype :: (sA ++ (sB ++ payload))) ++
        [(L :: MESSAGE_RECV_SEP :: mtype :: (sA ++ (sB ++ payload))).sum % 256]) =
      (if fromBytesLE sA = fromBytesLE sB
       then .ok (mtype, fromBytesLE sA, payload)
       else .error .serialMismatch) := by
  simp only [_unpack_message, List.getLast?_concat, List.dropLast_concat]
  rw [if_neg (by omega)]
  rw [if_neg (by omega)]
  have hTake : (sA ++ (sB ++ payload)).take 4 = sA := List.take_left' hA
  have hDrop : (sA ++ (sB ++ payload)).drop 4 = sB ++ payload := List.drop_left' hA
  have hDrop8 : (sA ++ (sB ++ payload)).drop 8 = payload := by
    rw [show (8 : Nat) = 4 + 4 from rfl, ← List.drop_drop, hDrop, List.drop_left' hB]
  rw [hTake, hDrop, List.take_left' hB, hDrop8]
  by_cases h : fromBytesLE sA = fromBytesLE sB
  · rw [if_neg (not_not_intro h), if_pos h]
  · rw [if_pos h, if_neg h]

/-- C7: for every frame body with a valid checksum and the receive
separator, if the two embedded 4-byte little-endian serial copies
differ the frame decoder fails with the serial mismatch error, and if
they agree it returns their common value as the serial number. -/
theorem C7_serial_mismatch (L mtype cs : Nat) (sA sB payload : List Nat)
    (hA : sA.length = 4) (hB : sB.length = 4)
    (hcs : cs = (L :: MESSAGE_RECV_SEP :: mtype :: (sA ++ (sB ++ payload))).sum % 256) :
    (fromBytesLE sA ≠ fromBytesLE sB →
      _unpack_message ((L :: MESSAGE_RECV_SEP :: mtype :: (sA ++ (sB ++ payload))) ++ [cs]) =
        .error .serialMismatch) ∧
    (fromBytesLE sA = fromBytesLE sB →
      _unpack_message ((L :: MESSAGE_RECV_SEP :: mtype :: (sA ++ (sB ++ payload))) ++ [cs]) =
        .ok (mtype, fromBytesLE sA, payload)) := by
  subst hcs
  rw [unpack_message_structure L mtype sA sB payload hA hB]
  constructor
  · intro h
    rw [if_neg h]
  · intro h
    rw [if_pos h]

/-- Witness for C7: a body carrying serial copies 1 and 2 is rejected
with the serial mismatch error; with both copies 1 it decodes to
serial number 1. -/
theorem C7_serial_mismatch_witness :
    ([1, 0, 0, 0] : List Nat).length = 4 ∧
    fromBytesLE [1, 0, 0, 0] ≠ fromBytesLE [2, 0, 0, 0] ∧
    _unpack_message ((0 :: MESSAGE_RECV_SEP :: 0xB0 ::
        ([1, 0, 0, 0] ++ ([2, 0, 0, 0] ++ []))) ++ [244]) = .error .serialMismatch ∧
    _unpack_message ((0 :: MESSAGE_RECV_SEP :: 0xB0 ::
        ([1, 0, 0, 0] ++ ([1, 0, 0, 0] ++ []))) ++ [243]) = .ok (0xB0, 1, []) :=
  ⟨by decide, by decide,
    (C7_serial_mismatch 0 0xB0 244 [1, 0, 0, 0] [2, 0, 0, 0] []
      (by decide) (by decide) (by decide)).1 (by decide),
    ((C7_serial_mismatch 0 0xB0 243 [1, 0, 0, 0] [1, 0, 0, 0] []
      (by decide) (by decide) (by decide)).2 (by decide)).trans (by decide)⟩

/-- C1 counterexample: the encoder writes the send separator 0x40 but
the decoder insists on the receive separator 0x41, so the decoder
applied to the body portion of the encoder output (checksum kept as
the last byte) rejects it with the separator error instead of
returning the original message type, serial number and payload. -/
theorem C1_round_trip_counterexample :
    _pack_message 0x30 0 [1, 0] =
      some (MESSAGE_START ::
        ([2, 0x40, 0x30, 0, 0, 0, 0, 0, 0, 0, 0, 1, 0, 115] ++ [MESSAGE_END])) ∧
    _unpack_message [2, 0x40, 0x30, 0, 0, 0, 0, 0, 0, 0, 0, 1, 0, 115] =
      .error .invalidSeparator ∧
    _unpack_message [2, 0x40, 0x30, 0, 0, 0, 0, 0, 0, 0, 0, 1, 0, 115] ≠
      .ok (0x30, 0, [1, 0]) := by
  refine ⟨by decide, by decide, by decide⟩

/-- C1 (amended): the round trip holds once the separator is
repaired: for every message type, serial number below 2^32 and 2-byte
payload, taking the body portion of the encoder output (bytes between
the start and end markers, checksum kept as the last byte), replacing
the separator byte by the receive separator and recomputing the
checksum, the frame decoder returns the original message type, serial
number and payload. -/
theorem C1_round_trip_with_recv_sep (mtype serial p1 p2 : Nat) (packed : List Nat)
    (hp : _pack_message mtype serial [p1, p2] = some packed) :
    _unpack_message (withRecvSep ((packed.drop 1).dropLast)) =
      .ok (mtype, serial, [p1, p2]) := by
  simp only [_pack_message] at hp
  split at hp
  · exact absurd hp (by simp)
  next hguard =>
    have hserial : serial < 2 ^ 32 := by
      rcases Nat.lt_or_ge serial (2 ^ 32) with h | h
      · exact h
      · exact absurd (Or.inr h) hguard
    rw [Option.some.injEq] at hp
    subst hp
    have e1 : ([MESSAGE_START] ++
        ([List.length [p1, p2], MESSAGE_SEND_SEP, mtype] ++ toBytesLE 4 serial ++
          toBytesLE 4 serial ++ [p1, p2]) ++
        [([List.length [p1, p2], MESSAGE_SEND_SEP, mtype] ++ toBytesLE 4 serial ++
          toBytesLE 4 serial ++ [p1, p2]).sum % 256, MESSAGE_END]).drop 1 =
        (([List.length [p1, p2], MESSAGE_SEND_SEP, mtype] ++ toBytesLE 4 serial ++
          toBytesLE 4 serial ++ [p1, p2]) ++
        [([List.length [p1, p2], MESSAGE_SEND_SEP, mtype] ++ toBytesLE 4 serial ++
          toBytesLE 4 serial ++ [p1, p2]).sum % 256]) ++ [MESSAGE_END] := by
      simp
    rw [e1, List.dropLast_concat]
    simp only [withRecvSep, List.dropLast_concat]
    have e2 : ([List.length [p1, p2], MESSAGE_SEND_SEP, mtype] ++ toBytesLE 4 serial ++
        toBytesLE 4 serial ++ [p1, p2]).set 1 MESSAGE_RECV_SEP =
        List.length [p1, p2] :: MESSAGE_RECV_SEP :: mtype ::
          (toBytesLE 4 serial ++ (toBytesLE 4 serial ++ [p1, p2])) := by
      simp [List.append_assoc]
    rw [e2]
    rw [unpack_message_structure (List.length [p1, p2]) mtype (toBytesLE 4 serial)
      (toBytesLE 4 serial) [p1, p2] (toBytesLE_length 4 serial) (toBytesLE_length 4 serial)]
    rw [if_pos rfl]
    rw [fromBytesLE_toBytesLE_four serial hserial]

/-- Witness for C1 (amended): the information request for serial
number 258 round-trips through the separator repair. -/
theorem C1_round_trip_with_recv_sep_witness :
    _pack_message 0x30 258 [1, 0] =
      some [0x68, 2, 0x40, 0x30, 2, 1, 0, 0, 2, 1, 0, 0, 1, 0, 121, 0x16] ∧
    _unpack_message (withRecvSep
      (([0x68, 2, 0x40, 0x30, 2, 1, 0, 0, 2, 1, 0, 0, 1, 0, 121, 0x16].drop 1).dropLast)) =
      .ok (0x30, 258, [1, 0]) :=
  ⟨by decide,
    C1_round_trip_with_recv_sep 0x30 258 1 0
      [0x68, 2, 0x40, 0x30, 2, 1, 0, 0, 2, 1, 0, 0, 1, 0, 121, 0x16] (by decide)⟩

theorem parseLoop_no_reply :
    ∀ ms : List (Nat × Nat × List Nat),
      (∀ m ∈ ms, m.1 = MESSAGE_TYPE_ERROR_STRING ∨
        (m.1 = MESSAGE_TYPE_STRING ∧ isValidUtf8 m.2.2 = true)) →
      parseLoop ms none = .error .noInformationReply := by
  intro ms
  induction ms with
  | nil => intro _; rfl
  | cons m rest ih =>
    intro hknown
    obtain ⟨mt, rs, msg⟩ := m
    have hm := hknown (mt, rs, msg) (by simp)
    simp only at hm
    rcases hm with h | ⟨h, hu⟩
    · subst h
      show parseLoop ((MESSAGE_TYPE_ERROR_STRING, rs, msg) :: rest) none = _
      simp only [parseLoop]
      rw [if_neg (by decide), if_neg (by decide), if_pos trivial]
      exact ih (fun m hmem => hknown m (List.mem_cons_of_mem _ hmem))
    · subst h
      show parseLoop ((MESSAGE_TYPE_STRING, rs, msg) :: rest) none = _
      simp only [parseLoop]
      rw [if_neg (by decide), if_pos trivial, if_pos hu]
      exact ih (fun m hmem => hknown m (List.mem_cons_of_mem _ hmem))

/-- C9 counterexample: a decoded stream that ends without any
information reply does not always surface the no-information-reply
error: a frame of unknown message type 0x42 aborts parse_messages
with the unknown-message-type error first. -/
theorem C9_no_information_reply_counterexample :
    _unpack_messages unknownTypeStream = .ok [(0x42, 0, [])] ∧
    (∀ m ∈ [((0x42 : Nat), (0 : Nat), ([] : List Nat))],
      m.1 ≠ MESSAGE_TYPE_INFORMATION_REPLY) ∧
    parse_messages 0 unknownTypeStream = .error .unknownMessageType ∧
    parse_messages 0 unknownTypeStream ≠ .error .noInformationReply := by
  refine ⟨by decide, by decide, by decide, by decide⟩

/-- C9 (amended): if the byte stream decodes into frames none of
which is an information reply, and every frame is of a known
non-reply type handled without error (an error string, or a text
message whose payload is valid UTF-8), parse_messages raises the
no-information-reply protocol error instead of returning a result. -/
theorem C9_no_information_reply (s : Nat) (input : List Nat)
    (ms : List (Nat × Nat × List Nat))
    (hok : _unpack_messages input = .ok ms)
    (hknown : ∀ m ∈ ms, m.1 = MESSAGE_TYPE_ERROR_STRING ∨
      (m.1 = MESSAGE_TYPE_STRING ∧ isValidUtf8 m.2.2 = true)) :
    parse_messages s input = .error .noInformationReply := by
  unfold parse_messages
  rw [hok]
  exact parseLoop_no_reply ms hknown

/-- Witness for C9 (amended): a stream carrying one error-string
frame and no information reply makes parse_messages fail with the
no-information-reply error. -/
theorem C9_no_information_reply_witness :
    _unpack_messages errorStringStream = .ok [(0xB1, 0, [])] ∧
    parse_messages 0 errorStringStream = .error .noInformationReply :=
  ⟨by decide,
    C9_no_information_reply 0 errorStringStream [(0xB1, 0, [])] (by decide)
      (by decide)⟩

end Omnik
